import Mathlib

/-!
Verification of the redisX RESP3 codec and connection core.

This file gives a shallow embedding, in Lean, of the parts of the redisX
TypeScript source that the checked claims are about:

* `Resp3Parser` (incremental RESP3 decoder) — embedded as a pure state-passing
  function `Resp3Parser.feed : ParserState → List Nat → ParserState × List Emit`
  over byte lists, mirroring the source's buffer/offset/frame-stack/pending-
  attributes fields and its control flow statement by statement.
* `Resp3Writer` (`writeValue`, `encodeCommand`) — embedded as pure functions
  from values to byte lists.
* `ConnectionManager` (reply correlation, command timeouts, parse-error
  handling, response transformation, handshake acceptance) — embedded as a
  small state machine over an explicit FIFO of pending commands.
* `RedisClient._validateOptions` — embedded as a pure validation function.

Bytes are modelled as `Nat` (the value of the octet); JavaScript strings that
only ever hold ASCII in the modelled code paths are modelled as byte lists.
-/

namespace RedisX

/-- ASCII bytes of a Lean string (all modelled wire data is ASCII). -/
def asciiBytes (s : String) : List Nat :=
  s.data.map Char.toNat

/-- Decimal ASCII digits of a natural number (JavaScript `Number.toString`
for a nonnegative integer). -/
def natDec (n : Nat) : List Nat :=
  (Nat.toDigits 10 n).map Char.toNat

/-- Decimal ASCII of an integer (JavaScript `BigInt.toString` /
`Number.toString` for integral values). -/
def intDec (v : Int) : List Nat :=
  if v < 0 then 45 :: natDec v.natAbs else natDec v.natAbs

/-- The two terminator bytes CR LF. -/
def crlf : List Nat := [13, 10]

/-- Payload of a RESP3 double, as carried by the decoder.

The source stores an IEEE-754 `number` here.  The three non-finite values are
modelled by name; a finite double is modelled by the literal it was parsed
from (`finite lit`).  No checked claim depends on double arithmetic, only on
the dispatch structure, so the numeric value of a finite double is not
interpreted. -/
inductive DoubleVal where
  | inf
  | negInf
  | nan
  | finite (lit : List Nat)
deriving DecidableEq, Repr

/-- The RESP3 value model of `src/parser_writer/parser.ts` (`type Resp3`).

Each variant mirrors one `Resp3*` record of the source; the optional
`attributes` sidecar (a JavaScript `Map`, which preserves insertion order) is
modelled as an ordered list of key/value pairs.  A JavaScript `Map` value of a
`map` node is likewise an ordered pair list, and a `Set` value of a `set` node
is an ordered element list (insertion order).  `big_number` keeps either a
big integer or, on `BigInt` parse failure, the literal digit string. -/
inductive Resp3 where
  | simple_string (value : List Nat) (attributes : Option (List (Resp3 × Resp3)))
  | error (code : Option (List Nat)) (message : List Nat)
      (attributes : Option (List (Resp3 × Resp3)))
  | integer (value : Int) (attributes : Option (List (Resp3 × Resp3)))
  | double (value : DoubleVal) (attributes : Option (List (Resp3 × Resp3)))
  | big_number (value : Int ⊕ List Nat) (attributes : Option (List (Resp3 × Resp3)))
  | boolean (value : Bool) (attributes : Option (List (Resp3 × Resp3)))
  | null (attributes : Option (List (Resp3 × Resp3)))
  | blob_string (value : Option (List Nat)) (attributes : Option (List (Resp3 × Resp3)))
  | blob_error (code : Option (List Nat)) (message : List Nat)
      (attributes : Option (List (Resp3 × Resp3)))
  | verbatim_string (format : List Nat) (value : List Nat)
      (attributes : Option (List (Resp3 × Resp3)))
  | array (value : Option (List Resp3)) (attributes : Option (List (Resp3 × Resp3)))
  | map (value : Option (List (Resp3 × Resp3))) (attributes : Option (List (Resp3 × Resp3)))
  | set (value : Option (List Resp3)) (attributes : Option (List (Resp3 × Resp3)))
  | push (value : List Resp3) (attributes : Option (List (Resp3 × Resp3)))

/-- Ordered attributes map (`Resp3Attributes` in the source). -/
abbrev Attrs := List (Resp3 × Resp3)

/-- Replace the `attributes` field of a node (the source's
`node.attributes = ...` assignment). -/
def Resp3.setAttrs : Resp3 → Option Attrs → Resp3
  | .simple_string v _, a => .simple_string v a
  | .error c m _, a => .error c m a
  | .integer v _, a => .integer v a
  | .double v _, a => .double v a
  | .big_number v _, a => .big_number v a
  | .boolean v _, a => .boolean v a
  | .null _, a => .null a
  | .blob_string v _, a => .blob_string v a
  | .blob_error c m _, a => .blob_error c m a
  | .verbatim_string f v _, a => .verbatim_string f v a
  | .array v _, a => .array v a
  | .map v _, a => .map v a
  | .set v _, a => .set v a
  | .push v _, a => .push v a

/-- Read the `attributes` field of a node. -/
def Resp3.getAttrs : Resp3 → Option Attrs
  | .simple_string _ a => a
  | .error _ _ a => a
  | .integer _ a => a
  | .double _ a => a
  | .big_number _ a => a
  | .boolean _ a => a
  | .null a => a
  | .blob_string _ a => a
  | .blob_error _ _ a => a
  | .verbatim_string _ _ a => a
  | .array _ a => a
  | .map _ a => a
  | .set _ a => a
  | .push _ a => a

/-! ### Low-level byte helpers used by the decoder -/

/-- Index of the first CR LF pair in a byte list (`Buffer.indexOf('\r\n')`
restricted to the suffix searched), relative to the start of the list. -/
def crlfIdx : List Nat → Option Nat
  | [] => none
  | [_] => none
  | a :: b :: rest =>
    if a = 13 ∧ b = 10 then some 0
    else (crlfIdx (b :: rest)).map (· + 1)

/-- `buf.indexOf('\r\n', start)`: absolute index of the first CR LF at or
after `start`, if any. -/
def findCRLF (buf : List Nat) (start : Nat) : Option Nat :=
  (crlfIdx (buf.drop start)).map (· + start)

/-- `buf.subarray(a, b)` / `buf.toString(a, b)` as a byte list. -/
def slice (buf : List Nat) (a b : Nat) : List Nat :=
  (buf.drop a).take (b - a)

/-- Leading decimal-digit run of a byte list. -/
def leadingDigits (l : List Nat) : List Nat :=
  l.takeWhile (fun b => decide (48 ≤ b ∧ b ≤ 57))

/-- Numeric value of a list of ASCII digit bytes. -/
def digitsVal (l : List Nat) : Nat :=
  l.foldl (fun acc b => acc * 10 + (b - 48)) 0

/-- JavaScript `Number.parseInt(s, 10)` on an ASCII byte string, as used by
`readLenAfterPrefix`: an optional sign followed by at least one decimal
digit; trailing non-digit bytes are ignored; `none` models `NaN`.
(`parseInt` also skips leading whitespace, which cannot occur on the
modelled code path.) -/
def jsParseInt10 (l : List Nat) : Option Int :=
  match l with
  | 43 :: rest =>
    let d := leadingDigits rest
    if d = [] then none else some (digitsVal d)
  | 45 :: rest =>
    let d := leadingDigits rest
    if d = [] then none else some (-(digitsVal d : Int))
  | _ =>
    let d := leadingDigits l
    if d = [] then none else some (digitsVal d)

/-- JavaScript `BigInt(s)` on an ASCII byte string (ECMAScript
`StringToBigInt`): the empty string is `0`; otherwise an optional sign
followed by decimal digits, with no other bytes allowed; `none` models the
thrown `SyntaxError`.  (Whitespace trimming and the `0x`/`0o`/`0b` radix
forms cannot occur on the modelled code paths.) -/
def jsBigIntOfBytes (l : List Nat) : Option Int :=
  if l = [] then some 0 else
  match l with
  | 43 :: rest =>
    if rest ≠ [] ∧ rest.all (fun b => decide (48 ≤ b ∧ b ≤ 57)) then
      some (digitsVal rest)
    else none
  | 45 :: rest =>
    if rest ≠ [] ∧ rest.all (fun b => decide (48 ≤ b ∧ b ≤ 57)) then
      some (-(digitsVal rest : Int))
    else none
  | _ =>
    if l.all (fun b => decide (48 ≤ b ∧ b ≤ 57)) then
      some (digitsVal l)
    else none

/-- `s.indexOf(b)` on a byte list: `none` models `-1`. -/
def idxOf (b : Nat) : List Nat → Option Nat
  | [] => none
  | a :: rest =>
    if a = b then some 0 else (idxOf b rest).map (· + 1)

/-- Splits a line on its first space, the way `parseError`,
`parseBlobStringLike('!')` and the writer treat error text: a `code` exists
only when the first space is at index `> 0`; the `message` is then the rest,
else the whole line. -/
def splitCode (line : List Nat) : Option (List Nat) × List Nat :=
  match idxOf 32 line with
  | some sp =>
    if sp > 0 then (some (slice line 0 sp), slice line (sp + 1) line.length)
    else (none, line)
  | none => (none, line)

/-! ### Decoder state (`Resp3Parser` fields) -/

/-- Aggregate kinds (`AggregateKind` in the source). -/
inductive AggKind where
  | array
  | map
  | set
  | attributes
  | push
deriving DecidableEq, Repr

/-- A frame on the aggregate stack (`interface FrameBase`).  `remaining` is a
JavaScript number and the source decrements it below zero on some code
paths, so it is modelled as `Int`. -/
structure Frame where
  kind : AggKind
  remaining : Int
  items : List Resp3
  attrs : Option Attrs

/-- The mutable fields of `Resp3Parser`.  `frames` keeps the top of the
source's stack (the end of its array) at the head of the list. -/
structure PState where
  buffer : List Nat
  offset : Nat
  frames : List Frame
  pendingAttributes : Option Attrs

/-- The freshly-constructed parser / the state after `reset()`. -/
def PState.initial : PState :=
  { buffer := [], offset := 0, frames := [], pendingAttributes := none }

/-- Result of one parsing step: `NEED_MORE`, a produced node, `undefined`,
or a thrown decode `Error` (caught in `feed`). -/
inductive POut where
  | needMore
  | value (v : Resp3)
  | nothing
  | thrown (msg : String)

/-- What the decoder hands to its sinks: `onReply`, `onPush`, `onError`. -/
inductive Emit where
  | reply (v : Resp3)
  | push (v : Resp3)
  | decodeErr

/-- `attachAttrs`: move the pending attributes, if any, onto the node. -/
def attachAttrs (st : PState) (v : Resp3) : Resp3 × PState :=
  match st.pendingAttributes with
  | some a => (v.setAttrs (some a), { st with pendingAttributes := none })
  | none => (v, st)

/-- `attachExplicitAttrs`: set the given attributes when present. -/
def attachExplicitAttrs (v : Resp3) (attrs : Option Attrs) : Resp3 :=
  match attrs with
  | some a => v.setAttrs (some a)
  | none => v

/-- `stealPendingAttributes`. -/
def stealPendingAttributes (st : PState) : Option Attrs × PState :=
  (st.pendingAttributes, { st with pendingAttributes := none })

/-- `ensure(n)`: at least `n` unread bytes. -/
def ensure (n : Nat) (st : PState) : Bool :=
  st.buffer.length - st.offset ≥ n

/-- `readLine()`: find CR LF from the current offset, return the bytes
between the prefix byte and the terminator, and advance past the CR LF.
`none` models `NEED_MORE` (no state change in that case). -/
def readLine (st : PState) : Option (List Nat) × PState :=
  match findCRLF st.buffer st.offset with
  | none => (none, st)
  | some i => (some (slice st.buffer (st.offset + 1) i), { st with offset := i + 2 })

/-- Result of `readLenAfterPrefix` (named `readLenAfterTag` here because of a
lexical restriction on names in this development). -/
inductive LenRes where
  | needMore
  | thrown
  | len (n : Int)

/-- `readLenAfterPrefix()`: read the header line after the type byte and
`Number.parseInt` it; a non-numeric length throws (`Invalid length`), after
the offset has already advanced past the line. -/
def readLenAfterTag (st : PState) : LenRes × PState :=
  match findCRLF st.buffer (st.offset + 1) with
  | none => (.needMore, st)
  | some i =>
    let s := slice st.buffer (st.offset + 1) i
    let st' := { st with offset := i + 2 }
    match jsParseInt10 s with
    | none => (.thrown, st')
    | some n => (.len n, st')

/-! ### Leaf parsers -/

/-- `parseSimpleString()`: `'+<line>\r\n'`. -/
def parseSimpleString (st : PState) : POut × PState :=
  if st.buffer[st.offset]? ≠ some 43 then (.needMore, st) else
  match readLine st with
  | (none, st') => (.needMore, st')
  | (some line, st') =>
    let (v, st'') := attachAttrs st' (.simple_string line none)
    (.value v, st'')

/-- `parseError()`: `'-<code> <message>\r\n'`, code optional. -/
def parseError (st : PState) : POut × PState :=
  if st.buffer[st.offset]? ≠ some 45 then (.needMore, st) else
  match readLine st with
  | (none, st') => (.needMore, st')
  | (some line, st') =>
    let (code, message) := splitCode line
    let (v, st'') := attachAttrs st' (.error code message none)
    (.value v, st'')

/-- `parseInteger()`: `':<number>\r\n'` via `BigInt`; failure throws
`Invalid integer`. -/
def parseInteger (st : PState) : POut × PState :=
  if st.buffer[st.offset]? ≠ some 58 then (.needMore, st) else
  match readLine st with
  | (none, st') => (.needMore, st')
  | (some line, st') =>
    match jsBigIntOfBytes line with
    | some n =>
      let (v, st'') := attachAttrs st' (.integer n none)
      (.value v, st'')
    | none => (.thrown "Invalid integer", st')

/-- `parseBigNumber()`: `'(<digits>\r\n'` via `BigInt`, falling back to the
literal byte string when `BigInt` rejects the line (not an error). -/
def parseBigNumber (st : PState) : POut × PState :=
  if st.buffer[st.offset]? ≠ some 40 then (.needMore, st) else
  match readLine st with
  | (none, st') => (.needMore, st')
  | (some line, st') =>
    match jsBigIntOfBytes line with
    | some n =>
      let (v, st'') := attachAttrs st' (.big_number (.inl n) none)
      (.value v, st'')
    | none =>
      let (v, st'') := attachAttrs st' (.big_number (.inr line) none)
      (.value v, st'')

/-- `parseNull()`: `'_\r\n'`; a non-empty body throws `Invalid null marker`. -/
def parseNull (st : PState) : POut × PState :=
  if st.buffer[st.offset]? ≠ some 95 then (.needMore, st) else
  match readLine st with
  | (none, st') => (.needMore, st')
  | (some line, st') =>
    if line ≠ [] then (.thrown "Invalid null marker", st')
    else
      let (v, st'') := attachAttrs st' (.null none)
      (.value v, st'')

/-- `parseBoolean()`: `'#t\r\n'` or `'#f\r\n'`; anything else throws. -/
def parseBoolean (st : PState) : POut × PState :=
  if st.buffer[st.offset]? ≠ some 35 then (.needMore, st) else
  match readLine st with
  | (none, st') => (.needMore, st')
  | (some line, st') =>
    if line = [116] then
      let (v, st'') := attachAttrs st' (.boolean true none)
      (.value v, st'')
    else if line = [102] then
      let (v, st'') := attachAttrs st' (.boolean false none)
      (.value v, st'')
    else (.thrown "Invalid boolean", st')

/-- ASCII lowercase of a byte list (`line.toLowerCase()` on ASCII data). -/
def lowerBytes (l : List Nat) : List Nat :=
  l.map (fun b => if 65 ≤ b ∧ b ≤ 90 then b + 32 else b)

/-- `Number.parseFloat(line)` is `NaN` iff, after an optional sign, the line
neither starts with a digit, nor with `.` followed by a digit, nor with the
literal `Infinity`.  Only this NaN-ness is consulted by the decoder. -/
def parseFloatNaN (l : List Nat) : Bool :=
  let body := match l with
    | 43 :: r => r
    | 45 :: r => r
    | r => r
  match body with
  | [] => true
  | b :: rest =>
    if 48 ≤ b ∧ b ≤ 57 then false
    else if b = 46 then
      match rest with
      | c :: _ => decide ¬(48 ≤ c ∧ c ≤ 57)
      | [] => true
    else decide (body.take 8 ≠ asciiBytes "Infinity")

/-- `parseDouble()`: `,<float>\r\n` with case-insensitive `inf`, `-inf`,
`nan`; otherwise `Number.parseFloat`, whose NaN result (other than literal
`nan`) throws `Invalid double`.  A finite double is kept as its literal. -/
def parseDouble (st : PState) : POut × PState :=
  if st.buffer[st.offset]? ≠ some 44 then (.needMore, st) else
  match readLine st with
  | (none, st') => (.needMore, st')
  | (some line, st') =>
    let lower := lowerBytes line
    if lower = asciiBytes "inf" then
      let (v, st'') := attachAttrs st' (.double .inf none)
      (.value v, st'')
    else if lower = asciiBytes "-inf" then
      let (v, st'') := attachAttrs st' (.double .negInf none)
      (.value v, st'')
    else if lower = asciiBytes "nan" then
      let (v, st'') := attachAttrs st' (.double .nan none)
      (.value v, st'')
    else if parseFloatNaN line then (.thrown "Invalid double", st')
    else
      let (v, st'') := attachAttrs st' (.double (.finite line) none)
      (.value v, st'')

/-- `parseBlobStringLike(kind)`: `'$<len>\r\n<payload>\r\n'` (blob string) or
`'!<len>\r\n<payload>\r\n'` (blob error); length `-1` is the null blob
string, resp. an empty-message blob error.  A payload not followed by a
literal CR LF throws `Blob not terminated by CRLF`.
The parser is modelled with the options the client uses
(`decodeBlobAsString` unset), so a blob payload stays a byte string.
Lengths `< -1` would make the source move its offset backwards; they occur
in no checked claim and are modelled by clamping the length at `0`. -/
def parseBlobStringLike (isBlobErr : Bool) (st : PState) : POut × PState :=
  if st.buffer[st.offset]? ≠ some (if isBlobErr then 33 else 36) then (.needMore, st) else
  match readLenAfterTag st with
  | (.needMore, st') => (.needMore, st')
  | (.thrown, st') => (.thrown "Invalid length", st')
  | (.len n, st') =>
    if n = -1 then
      if isBlobErr then
        let (v, st'') := attachAttrs st' (.blob_error none [] none)
        (.value v, st'')
      else
        let (v, st'') := attachAttrs st' (.blob_string none none)
        (.value v, st'')
    else
      let len := n.toNat
      if ¬ ensure (len + 2) st' then (.needMore, st') else
      let payload := slice st'.buffer st'.offset (st'.offset + len)
      let st1 := { st' with offset := st'.offset + len }
      if st1.buffer[st1.offset]? ≠ some 13 ∨ st1.buffer[st1.offset + 1]? ≠ some 10 then
        (.thrown "Blob not terminated by CRLF", st1)
      else
        let st2 := { st1 with offset := st1.offset + 2 }
        if isBlobErr then
          let (code, message) := splitCode payload
          let (v, st3) := attachAttrs st2 (.blob_error code message none)
          (.value v, st3)
        else
          let (v, st3) := attachAttrs st2 (.blob_string (some payload) none)
          (.value v, st3)

/-- `parseVerbatimString()`: `'=<len>\r\n<fmt>:<data>\r\n'`; a negative
length throws `Invalid verbatim length`; a missing (or leading) colon means
format `txt` and the whole payload as data. -/
def parseVerbatimString (st : PState) : POut × PState :=
  if st.buffer[st.offset]? ≠ some 61 then (.needMore, st) else
  match readLenAfterTag st with
  | (.needMore, st') => (.needMore, st')
  | (.thrown, st') => (.thrown "Invalid length", st')
  | (.len n, st') =>
    if n < 0 then (.thrown "Invalid verbatim length", st') else
    let len := n.toNat
    if ¬ ensure (len + 2) st' then (.needMore, st') else
    let payload := slice st'.buffer st'.offset (st'.offset + len)
    let st1 := { st' with offset := st'.offset + len }
    if st1.buffer[st1.offset]? ≠ some 13 ∨ st1.buffer[st1.offset + 1]? ≠ some 10 then
      (.thrown "Verbatim not terminated by CRLF", st1)
    else
      let st2 := { st1 with offset := st1.offset + 2 }
      let v : Resp3 :=
        match idxOf 58 payload with
        | some colon =>
          if colon > 0 then
            .verbatim_string (slice payload 0 colon)
              (slice payload (colon + 1) payload.length) none
          else .verbatim_string (asciiBytes "txt") payload none
        | none => .verbatim_string (asciiBytes "txt") payload none
      let (v', st3) := attachAttrs st2 v
      (.value v', st3)

/-! ### Aggregates and the dispatch loop -/

/-- `aggregateNull(kind)`: the value decoded for a `-1` aggregate length. -/
def aggregateNull : AggKind → Resp3
  | .array => .array none none
  | .map => .map none none
  | .set => .set none none
  | .push => .push [] none
  | .attributes => .null none

/-- Pair up `[k1, v1, k2, v2, …]` the way `finalizeFrameInstant` fills a
JavaScript `Map`.  A dangling key (odd item count, unreachable for frames
whose remaining count started even) would be paired with `undefined` in the
source; it is modelled by a bare null node. -/
def pairUp : List Resp3 → List (Resp3 × Resp3)
  | k :: v :: rest => (k, v) :: pairUp rest
  | [k] => [(k, Resp3.null none)]
  | [] => []

/-- `finalizeFrameInstant(frame)`: turn a completed frame into a value.  An
attributes frame stores its pairs as the pending attributes and returns a
placeholder bare null node (the source's sentinel). -/
def finalizeFrameInstant (frame : Frame) (st : PState) : Resp3 × PState :=
  match frame.kind with
  | .array => (.array (some frame.items) none, st)
  | .set => (.set (some frame.items) none, st)
  | .map => (.map (some (pairUp frame.items)) none, st)
  | .attributes =>
    (.null none, { st with pendingAttributes := some (pairUp frame.items) })
  | .push => (.push frame.items none, st)

/-- The wire tag byte of each aggregate kind. -/
def aggTag : AggKind → Nat
  | .array => 42
  | .map => 37
  | .set => 126
  | .push => 62
  | .attributes => 124

/-- The three mutually recursive members of the source's dispatch loop:
`parseOne`, `parseAggregate(kind)` and `consumeNested`. -/
inductive PMode where
  | one
  | agg (kind : AggKind)
  | nested

/-- The mutual recursion `parseOne` ↔ `parseAggregate` ↔ `consumeNested`,
written as one function that is structurally recursive on a fuel counter so
that the kernel can evaluate it.  `fuel` only bounds the recursion depth;
every theorem in this file that evaluates the decoder supplies ample fuel,
so the fuel-out branch is never reached there.

* mode `one` is `parseOne()`: dispatch on the type byte at the offset.
* mode `agg kind` is `parseAggregate(kind)`: read the length header; `-1`
  becomes the null aggregate; a zero remaining count finalizes immediately
  (for an attributes frame this stores the pending attributes and then
  `attachAttrs` consumes them again — the source's `|0` self-attachment);
  otherwise push a frame and enter `consumeNested`.
* mode `nested` is `consumeNested()`: keep parsing children while frames are
  in progress.  On `NEED_MORE`/`undefined` from the child parse, roll the
  offset back to the start of that child and report `NEED_MORE`, leaving
  the frame stack untouched.  When a child completes the top frame,
  finalize and pop it; with no frames left it is a finished top-level
  value, otherwise it is absorbed into the parent frame and the loop
  continues (the source `continue`s in both the `parent.remaining === 0`
  case and the still-incomplete case).  If the stack is empty when a child
  value arrives (possible when the child's own `consumeNested` already
  collapsed every frame), the source dereferences `undefined` and throws a
  `TypeError`; that throw is modelled here. -/
def parseStep : Nat → PMode → PState → POut × PState
  | 0, _, st => (.thrown "out of fuel", st)
  | fuel + 1, .one, st =>
    if st.offset ≥ st.buffer.length then (.nothing, st) else
    match st.buffer[st.offset]? with
    | none => (.needMore, st)
    | some p =>
      if p = 43 then parseSimpleString st
      else if p = 45 then parseError st
      else if p = 58 then parseInteger st
      else if p = 36 then parseBlobStringLike false st
      else if p = 33 then parseBlobStringLike true st
      else if p = 61 then parseVerbatimString st
      else if p = 42 then parseStep fuel (.agg .array) st
      else if p = 37 then parseStep fuel (.agg .map) st
      else if p = 126 then parseStep fuel (.agg .set) st
      else if p = 62 then parseStep fuel (.agg .push) st
      else if p = 124 then parseStep fuel (.agg .attributes) st
      else if p = 95 then parseNull st
      else if p = 35 then parseBoolean st
      else if p = 44 then parseDouble st
      else if p = 40 then parseBigNumber st
      else (.thrown "Unknown RESP3 prefix", st)
  | fuel + 1, .agg kind, st =>
    if st.buffer[st.offset]? ≠ some (aggTag kind) then (.needMore, st) else
    match readLenAfterTag st with
    | (.needMore, st') => (.needMore, st')
    | (.thrown, st') => (.thrown "Invalid length", st')
    | (.len n, st') =>
      if n = -1 then
        let (v, st'') := attachAttrs st' (aggregateNull kind)
        (.value v, st'')
      else
        let (att, st'') := stealPendingAttributes st'
        let rem : Int := if kind = .map ∨ kind = .attributes then n * 2 else n
        let frame : Frame := { kind := kind, remaining := rem, items := [], attrs := att }
        if rem = 0 then
          let (completed, st3) := finalizeFrameInstant frame st''
          let (v, st4) := attachAttrs st3 completed
          (.value v, st4)
        else
          parseStep fuel .nested { st'' with frames := frame :: st''.frames }
  | fuel + 1, .nested, st =>
    match st.frames with
    | [] => (.nothing, st)
    | _ :: _ =>
      let start := st.offset
      let (child, st') := parseStep fuel .one st
      match child with
      | .needMore => (.needMore, { st' with offset := start })
      | .nothing => (.needMore, { st' with offset := start })
      | .thrown m => (.thrown m, st')
      | .value c =>
        match st'.frames with
        | [] => (.thrown "TypeError: no frame", st')
        | top :: rest =>
          let top' := { top with items := top.items ++ [c], remaining := top.remaining - 1 }
          if top'.remaining > 0 then
            parseStep fuel .nested { st' with frames := top' :: rest }
          else
            let (completed, st2) := finalizeFrameInstant top' { st' with frames := top' :: rest }
            let st3 := { st2 with frames := st2.frames.tail }
            let withA := attachExplicitAttrs completed top'.attrs
            match st3.frames with
            | [] => (.value withA, st3)
            | parent :: prest =>
              let parent' := { parent with
                items := parent.items ++ [withA], remaining := parent.remaining - 1 }
              parseStep fuel .nested { st3 with frames := parent' :: prest }

/-- `parseOne()` (see `parseStep`). -/
def parseOne (fuel : Nat) (st : PState) : POut × PState :=
  parseStep fuel .one st

/-- `handleValue(node)`: drop the internal bare-null placeholder only while
frames are in progress; route push frames to `onPush` when wired (falling
back to `onReply`); everything else goes to `onReply`. -/
def handleValue (frames : List Frame) (hasPush : Bool) (v : Resp3) : List Emit :=
  match v with
  | .null none =>
    match frames with
    | _ :: _ => []
    | [] => [.reply (.null none)]
  | .push items a =>
    if hasPush then [.push (.push items a)] else [.reply (.push items a)]
  | v => [.reply v]

/-- The `while (true)` loop inside `feed`, accumulating sink calls.  On a
thrown decode error the error is reported and the parser state reset. -/
def feedLoop : Nat → Bool → PState → List Emit → PState × List Emit
  | 0, _, st, acc => (st, acc)
  | fuel + 1, hasPush, st, acc =>
    let start := st.offset
    let (out, st') := parseOne fuel st
    match out with
    | .needMore => ({ st' with offset := start }, acc)
    | .nothing => (st', acc)
    | .thrown _ => (PState.initial, acc ++ [.decodeErr])
    | .value v => feedLoop fuel hasPush st' (acc ++ handleValue st'.frames hasPush v)

namespace Resp3Parser

/-- `Resp3Parser.feed(chunk)`: append the chunk to the unread part of the
buffer, then parse as many top-level values as possible, rolling the offset
back to the start of a partially-available value.  `hasPush` says whether an
`onPush` sink is wired (the client wires one).  Returns the new parser state
and the sink calls in order. -/
def feed (hasPush : Bool) (st : PState) (chunk : List Nat) : PState × List Emit :=
  if chunk = [] then (st, []) else
  let st1 :=
    if st.offset = 0 ∧ st.buffer = [] then { st with buffer := chunk }
    else
      let stDropped :=
        if st.offset > 0 then { st with buffer := st.buffer.drop st.offset, offset := 0 }
        else st
      { stDropped with buffer := stDropped.buffer ++ chunk }
  let fuel := (st1.buffer.length + st1.frames.length) * 4 + 16
  feedLoop fuel hasPush st1 []

/-- Feed several chunks in sequence, collecting every sink call. -/
def feedAll (hasPush : Bool) (st : PState) (chunks : List (List Nat)) :
    PState × List Emit :=
  match chunks with
  | [] => (st, [])
  | c :: rest =>
    let (st', es) := feed hasPush st c
    let (st'', es') := feedAll hasPush st' rest
    (st'', es ++ es')

end Resp3Parser

/-! ### The writer (`src/parser_writer/writer.ts`) -/

namespace Resp3Writer

/-- `Resp3Writer.writeValue(value)`: serialize one RESP3 value, emitting the
attributes aggregate first when the node carries a non-empty attributes map
(`value.attributes.size > 0`).  Keys and values of maps and attributes go
through `convertToResp3`, which is the identity on nodes that already carry
a `__type` — as every value in this model does.  The recursion is made
structural on a fuel counter so the kernel can evaluate it; fuel only bounds
the nesting depth and every use in this file supplies ample fuel.
A finite double would be written as JavaScript `Number.toString`; in this
model it is written as the literal the `DoubleVal` carries. -/
def writeValueF : Nat → Resp3 → List Nat
  | 0, _ => []
  | fuel + 1, v =>
    let attrsPart :=
      match v.getAttrs with
      | some l =>
        if l.length > 0 then
          124 :: natDec l.length ++ crlf
            ++ (l.map (fun kv => writeValueF fuel kv.1 ++ writeValueF fuel kv.2)).flatten
        else []
      | none => []
    let body :=
      match v with
      | .simple_string s _ => 43 :: s ++ crlf
      | .error c m _ =>
        45 :: (match c with
          | some code => code ++ [32] ++ m
          | none => m) ++ crlf
      | .integer n _ => 58 :: intDec n ++ crlf
      | .double d _ =>
        44 :: (match d with
          | .finite lit => lit
          | .nan => asciiBytes "nan"
          | .inf => asciiBytes "inf"
          | .negInf => asciiBytes "-inf") ++ crlf
      | .big_number bv _ =>
        40 :: (match bv with
          | .inl n => intDec n
          | .inr s => s) ++ crlf
      | .boolean b _ => 35 :: (if b then [116] else [102]) ++ crlf
      | .null _ => 95 :: crlf
      | .blob_string bv _ =>
        match bv with
        | none => 36 :: asciiBytes "-1" ++ crlf
        | some b => 36 :: natDec b.length ++ crlf ++ b ++ crlf
      | .blob_error c m _ =>
        let content := match c with
          | some code => code ++ [32] ++ m
          | none => m
        33 :: natDec content.length ++ crlf ++ content ++ crlf
      | .verbatim_string f s _ =>
        let content := f ++ [58] ++ s
        61 :: natDec content.length ++ crlf ++ content ++ crlf
      | .array av _ =>
        match av with
        | none => 42 :: asciiBytes "-1" ++ crlf
        | some vs => 42 :: natDec vs.length ++ crlf ++ (vs.map (writeValueF fuel)).flatten
      | .map mv _ =>
        match mv with
        | none => 37 :: asciiBytes "-1" ++ crlf
        | some prs =>
          37 :: natDec prs.length ++ crlf
            ++ (prs.map (fun kv => writeValueF fuel kv.1 ++ writeValueF fuel kv.2)).flatten
      | .set sv _ =>
        match sv with
        | none => 126 :: asciiBytes "-1" ++ crlf
        | some vs => 126 :: natDec vs.length ++ crlf ++ (vs.map (writeValueF fuel)).flatten
      | .push vs _ => 62 :: natDec vs.length ++ crlf ++ (vs.map (writeValueF fuel)).flatten
    attrsPart ++ body

/-- `Resp3Writer.encode(value)` (`writeValue` on a fresh buffer). -/
def encode (v : Resp3) : List Nat :=
  writeValueF 64 v

/-- `writeBulkString` for a byte-string argument: `$<len>\r\n<bytes>\r\n`. -/
def writeBulkString (b : List Nat) : List Nat :=
  36 :: natDec b.length ++ crlf ++ b ++ crlf

/-- `Resp3Writer.encodeCommand(command, ...args)`: an array of bulk strings,
one for the verb and one per argument.  Arguments are modelled as byte
strings (the source's `string` and `Buffer` argument cases; a number
argument contributes its decimal string the same way). -/
def encodeCommand (command : List Nat) (args : List (List Nat)) : List Nat :=
  42 :: natDec (args.length + 1) ++ crlf
    ++ writeBulkString command ++ (args.map writeBulkString).flatten

end Resp3Writer

/-! ### Number(bigint): exact model of the 64-bit-float conversion -/

/-- Floor of the base-2 logarithm, written with a structural fuel argument
so the kernel can evaluate it; `fuel = n` always suffices. -/
def log2Fuel : Nat → Nat → Nat
  | 0, _ => 0
  | fuel + 1, n => if 2 ≤ n then log2Fuel fuel (n / 2) + 1 else 0

/-- `Nat.log2`, evaluably. -/
def log2floor (n : Nat) : Nat :=
  log2Fuel n n

/-- Rounding a natural number to the nearest IEEE-754 binary64 value
(`Number(bigint)` for a nonnegative argument), expressed exactly as an
integer result: below `2^53` every integer is representable; above, the
representable grid in `[2^k, 2^(k+1))` has spacing `2^(k-52)` and
round-to-nearest breaks ties to an even significand.  Exact for every
`n < 2^1024`, which covers all 64-bit server integers. -/
def jsDoubleOfNat (n : Nat) : Nat :=
  if n ≤ 2 ^ 53 then n
  else
    let e := log2floor n - 52
    let q := n / 2 ^ e
    let r := n % 2 ^ e
    let half := 2 ^ (e - 1)
    if r > half ∨ (r = half ∧ q % 2 = 1) then (q + 1) * 2 ^ e else q * 2 ^ e

/-- `Number(v)` for a big integer `v`, as an exact integer result. -/
def jsDoubleOfInt (v : Int) : Int :=
  if v < 0 then -(jsDoubleOfNat v.natAbs : Int) else (jsDoubleOfNat v.natAbs : Int)

/-! ### The session (`ConnectionManager`, part of `RedisClient`) -/

/-- What `_transformResponse` hands back to a resolving future. -/
inductive JSVal where
  | str (s : List Nat)
  | num (v : Int)
  | dbl (v : DoubleVal)
  | boolv (b : Bool)
  | nullv
  | rawArray (v : Option (List Resp3))
  | rawMap (v : Option (List (Resp3 × Resp3)))
  | rawSet (v : Option (List Resp3))
  | rawPush (v : List Resp3)

/-- `` `${resp3.code || 'ERROR'}: ${resp3.message}` `` — an absent or empty
code falls back to `ERROR`. -/
def errText (code : Option (List Nat)) (message : List Nat) : List Nat :=
  (match code with
    | some c => if c = [] then asciiBytes "ERROR" else c
    | none => asciiBytes "ERROR") ++ asciiBytes ": " ++ message

/-- `ConnectionManager._transformResponse(resp3)`: `Except.error` models the
thrown `Error` (wrapped in a `TransformError` and rejected into the pending
future).  An `integer` reply, a `bigint`-valued `big_number` reply, and a
blob string all lose their exact representation: `Number(bigint)` for the
integers, `value?.toString('utf8') || null` for the blob (so the empty blob
becomes `null` too, the empty string being falsy). -/
def transformResponse : Resp3 → Except (List Nat) JSVal
  | .simple_string s _ => .ok (.str s)
  | .error c m _ => .error (errText c m)
  | .integer v _ => .ok (.num (jsDoubleOfInt v))
  | .double d _ => .ok (.dbl d)
  | .big_number bv _ =>
    match bv with
    | .inl n => .ok (.num (jsDoubleOfInt n))
    | .inr s => .ok (.str s)
  | .boolean b _ => .ok (.boolv b)
  | .null _ => .ok .nullv
  | .blob_string bv _ =>
    match bv with
    | none => .ok .nullv
    | some b => if b = [] then .ok .nullv else .ok (.str b)
  | .blob_error c m _ => .error (errText c m)
  | .verbatim_string _ s _ => .ok (.str s)
  | .array av _ => .ok (.rawArray av)
  | .map mv _ => .ok (.rawMap mv)
  | .set sv _ => .ok (.rawSet sv)
  | .push vs _ => .ok (.rawPush vs)

/-- A pending command: one entry of `_pendingCommands` (insertion-ordered).
`id` models the unique `commandId` (the source generates them from a
strictly increasing counter, so ids of live entries are distinct). -/
structure Pending where
  id : Nat
  command : List Nat

/-- How a pending command's future settles. -/
inductive Outcome where
  | resolved (v : JSVal)
  | rejected (msg : List Nat)
  | timedOut

/-- Session state: the FIFO of pending commands, the log of settled futures
in settlement order, and a count of `error` events emitted. -/
structure Session where
  pendings : List Pending
  resolutions : List (Nat × Outcome)
  errorEvents : Nat

/-- Outcome `_handleReply` produces for the head pending command. -/
def replyOutcome (r : Resp3) : Outcome :=
  match transformResponse r with
  | .ok v => .resolved v
  | .error m => .rejected m

/-- `_handleReply(resp3)`: take the first entry of `_pendingCommands`
(insertion order — FIFO), transform the reply and settle that future; the
resolve/reject closures delete the entry by its id, which is the head.
With no pending entry the source destructures `undefined` (a thrown
`TypeError`); no future settles in that case. -/
def handleReply (s : Session) (r : Resp3) : Session :=
  match s.pendings with
  | [] => s
  | p :: rest =>
    { pendings := rest
      resolutions := s.resolutions ++ [(p.id, replyOutcome r)]
      errorEvents := s.errorEvents }

/-- `Map.delete(key)`: remove the entry with the given key (a JavaScript
`Map` holds at most one entry per key) and keep the order of the rest. -/
def eraseKey (cid : Nat) : List Pending → List Pending
  | [] => []
  | p :: rest => if p.id = cid then rest else p :: eraseKey cid rest

/-- The `setTimeout` handler armed by `sendCommand`: it deletes the entry
with that command id from `_pendingCommands` — wherever it sits in the FIFO,
and without leaving any placeholder — and rejects the future with
`CommandTimeoutError`. -/
def handleTimeoutFire (s : Session) (cid : Nat) : Session :=
  { pendings := eraseKey cid s.pendings
    resolutions := s.resolutions ++ [(cid, .timedOut)]
    errorEvents := s.errorEvents }

/-- `_handleParseError(error)`: emit an `error` event wrapping a
`ParseError`.  Nothing else: `_pendingCommands` is not touched and no
pending future is rejected. -/
def handleParseError (s : Session) : Session :=
  { s with errorEvents := s.errorEvents + 1 }

/-- Events reaching the session from the decoder and the timers. -/
inductive SessionEvent where
  | reply (r : Resp3)
  | push (r : Resp3)
  | timeoutFire (cid : Nat)
  | parseError

/-- One session step: `_handleReply`, `_handlePush` (which only emits a
`push` event and never touches the FIFO), a command-timeout firing, or
`_handleParseError`. -/
def sessionStep (s : Session) : SessionEvent → Session
  | .reply r => handleReply s r
  | .push _ => s
  | .timeoutFire cid => handleTimeoutFire s cid
  | .parseError => handleParseError s

/-- Run a sequence of session events. -/
def sessionRun (s : Session) (es : List SessionEvent) : Session :=
  es.foldl sessionStep s

/-- `ConnectionManager._performHandshake` accepts the first decoded reply
exactly when it is the simple string `OK`
(`resp3.__type === 'simple_string' && resp3.value === 'OK'`); any other
first reply rejects the pending `connect()` with a handshake error. -/
def handshakeAccepts : Resp3 → Bool
  | .simple_string v _ => decide (v = asciiBytes "OK")
  | _ => false

/-! ### `RedisClient._validateOptions` -/

/-- The numeric options `_validateOptions` checks. -/
structure ClientNumOptions where
  port : Int
  connectTimeout : Int
  commandTimeout : Int
  database : Int

/-- Which option a `ConfigurationError` blames. -/
inductive ConfigField where
  | port
  | connectTimeout
  | commandTimeout
  | database
deriving DecidableEq, Repr

/-- `RedisClient._validateOptions(options)`: `some f` models the thrown
`ConfigurationError` for field `f`, `none` means the options pass. -/
def validateOptions (o : ClientNumOptions) : Option ConfigField :=
  if o.port < 1 ∨ o.port > 65535 then some .port
  else if o.connectTimeout < 0 then some .connectTimeout
  else if o.commandTimeout < 0 then some .commandTimeout
  else if o.database < 0 then some .database
  else none

/-! ## Claim theorems -/

/-- C1: the decoder is NOT chunk-boundary independent.  The byte sequence
`*1\r\n+a\r\n` decodes, in one chunk, to the single array value
`[simple("a")]`; the same bytes split at the aggregate header into the
partition `["*1\r\n", "+a\r\n"]` make the decoder emit nothing at all — on
`NeedMore` inside an aggregate, `feed` rolls the offset back to the
aggregate header while the frame stays on the stack, so the next `feed`
re-reads the header, pushes a duplicate frame, and the completed array is
absorbed into the stale frame instead of being emitted. -/
theorem c1_decoder_chunk_dependence :
    (Resp3Parser.feed true PState.initial (asciiBytes "*1\r\n+a\r\n")).2
        = [Emit.reply (.array (some [.simple_string (asciiBytes "a") none]) none)] ∧
    (Resp3Parser.feedAll true PState.initial
        [asciiBytes "*1\r\n", asciiBytes "+a\r\n"]).2 = [] ∧
    asciiBytes "*1\r\n" ++ asciiBytes "+a\r\n" = asciiBytes "*1\r\n+a\r\n" :=
  ⟨rfl, rfl, rfl⟩

/-- C2: for the input `|1\r\n+ttl\r\n:3600\r\n+OK\r\n` the decoder emits TWO
replies to the on-reply sink, not one: first the bare-null sentinel produced
when the top-level attributes frame finalizes (the `handleValue` guard drops
it only while `frames.length > 0`, and at top level the stack is already
empty), then the simple string `OK` carrying the attributes
`{simple("ttl") → integer(3600)}`. -/
theorem c2_attributes_sentinel_emitted :
    (Resp3Parser.feed true PState.initial
        (asciiBytes "|1\r\n+ttl\r\n:3600\r\n+OK\r\n")).2
      = [Emit.reply (.null none),
         Emit.reply (.simple_string (asciiBytes "OK")
           (some [(.simple_string (asciiBytes "ttl") none, .integer 3600 none)]))] :=
  rfl

/-- C3 counterexample: with commands A (id 1) then B (id 2) pending, A's
timeout firing followed by the next wire reply (A's own, `PONG`) leaves NO
tombstone — the FIFO drops to `[B]` and the arriving reply resolves B's
future with A's reply, so B is mis-correlated, contrary to the claim. -/
theorem c3_counterexample_timeout_miscorrelation :
    sessionRun
        { pendings := [⟨1, asciiBytes "PING"⟩, ⟨2, asciiBytes "GET"⟩]
          resolutions := [], errorEvents := 0 }
        [.timeoutFire 1, .reply (.simple_string (asciiBytes "PONG") none)]
      = { pendings := []
          resolutions := [(1, .timedOut), (2, .resolved (.str (asciiBytes "PONG")))]
          errorEvents := 0 } :=
  rfl

/-- C3 amended: when A's command timeout fires before A's reply, the session
deletes A's FIFO entry outright (no tombstone is kept), so the next arriving
non-push reply — A's own — resolves the future of the next pending command
B.  This holds for any commands A, B, any remaining queue and any reply. -/
theorem c3_amended_timeout_deletes_entry (A B : Pending) (rest : List Pending)
    (r : Resp3) :
    sessionRun { pendings := A :: B :: rest, resolutions := [], errorEvents := 0 }
        [.timeoutFire A.id, .reply r]
      = { pendings := rest
          resolutions := [(A.id, .timedOut), (B.id, replyOutcome r)]
          errorEvents := 0 } := by
  simp [sessionRun, sessionStep, handleTimeoutFire, handleReply, eraseKey]

/-- Witness for the amended C3 theorem at concrete commands and reply. -/
theorem c3_amended_witness :
    sessionRun
        { pendings := [⟨5, asciiBytes "A"⟩, ⟨6, asciiBytes "B"⟩, ⟨7, asciiBytes "C"⟩]
          resolutions := [], errorEvents := 0 }
        [.timeoutFire 5, .reply (.integer 1 none)]
      = { pendings := [⟨7, asciiBytes "C"⟩]
          resolutions := [(5, .timedOut), (6, replyOutcome (.integer 1 none))]
          errorEvents := 0 } :=
  c3_amended_timeout_deletes_entry ⟨5, asciiBytes "A"⟩ ⟨6, asciiBytes "B"⟩
    [⟨7, asciiBytes "C"⟩] (.integer 1 none)

/-- C4 counterexample: with k = 1 request pending, a decoder error event
leaves that request pending and settles no future at all — the pending
request is NOT rejected with a decode error, contrary to the claim. -/
theorem c4_counterexample_parse_error_leaves_pending :
    sessionStep
        { pendings := [⟨1, asciiBytes "GET"⟩], resolutions := [], errorEvents := 0 }
        .parseError
      = { pendings := [⟨1, asciiBytes "GET"⟩], resolutions := [], errorEvents := 1 } :=
  rfl

/-- C4 amended: on a decode error the session only emits an `error` event
(`_handleParseError` wraps it in a `ParseError`); whatever requests are
in flight stay in the FIFO with their futures unsettled — none of them is
rejected. -/
theorem c4_amended_parse_error_only_emits (ps : List Pending)
    (res : List (Nat × Outcome)) (e : Nat) :
    sessionRun { pendings := ps, resolutions := res, errorEvents := e } [.parseError]
      = { pendings := ps, resolutions := res, errorEvents := e + 1 } :=
  rfl

/-- Witness for the amended C4 theorem at a concrete in-flight queue. -/
theorem c4_amended_witness :
    sessionRun
        { pendings := [⟨1, asciiBytes "GET"⟩, ⟨2, asciiBytes "SET"⟩]
          resolutions := [], errorEvents := 0 }
        [.parseError]
      = { pendings := [⟨1, asciiBytes "GET"⟩, ⟨2, asciiBytes "SET"⟩]
          resolutions := [], errorEvents := 1 } :=
  c4_amended_parse_error_only_emits [⟨1, asciiBytes "GET"⟩, ⟨2, asciiBytes "SET"⟩] [] 0

/-- C5: the encode/decode round trip fails.  For the nested value
V = array[array[simple("a")]] the writer emits `*1\r\n*1\r\n+a\r\n`, and
feeding exactly those bytes to the decoder emits NO value (the completed
outer array is absorbed into a stale frame and never reaches the sink),
instead of exactly one value structurally equal to V. -/
theorem c5_roundtrip_fails_on_nested_value :
    Resp3Writer.encode
        (.array (some [.array (some [.simple_string (asciiBytes "a") none]) none]) none)
      = asciiBytes "*1\r\n*1\r\n+a\r\n" ∧
    (Resp3Parser.feed true PState.initial (asciiBytes "*1\r\n*1\r\n+a\r\n")).2 = [] :=
  ⟨rfl, rfl⟩

/-- C6: FIFO resolution order without timeouts.  Push frames never touch the
FIFO, and for pending requests R₁…Rₖ with the replies arriving in wire
order, the i-th arriving non-push reply settles the i-th oldest pending
request, so the futures settle in exactly submission order. -/
theorem c6_fifo_resolution_order :
    (∀ (s : Session) (r : Resp3), sessionStep s (.push r) = s) ∧
    ∀ (ps : List Pending) (rs : List Resp3) (res0 : List (Nat × Outcome)) (e0 : Nat),
      rs.length ≤ ps.length →
      sessionRun { pendings := ps, resolutions := res0, errorEvents := e0 }
          (rs.map SessionEvent.reply)
        = { pendings := ps.drop rs.length
            resolutions := res0 ++ List.zipWith (fun p r => (p.id, replyOutcome r)) ps rs
            errorEvents := e0 } := by
  constructor
  · intro s r; rfl
  · intro ps rs
    induction rs generalizing ps with
    | nil => intro res0 e0 _; simp [sessionRun]
    | cons r rs ih =>
      intro res0 e0 h
      match ps with
      | [] => simp at h
      | p :: ps' =>
        simp only [List.map_cons, sessionRun, List.foldl_cons]
        have step1 :
            sessionStep { pendings := p :: ps', resolutions := res0, errorEvents := e0 }
              (.reply r)
            = { pendings := ps', resolutions := res0 ++ [(p.id, replyOutcome r)]
                errorEvents := e0 } := rfl
        rw [step1]
        have h' : rs.length ≤ ps'.length := by simpa using h
        have hrun := ih ps' (res0 ++ [(p.id, replyOutcome r)]) e0 h'
        simp only [sessionRun] at hrun
        rw [hrun]
        simp [List.zipWith]

/-- Witness for C6 at two pending requests and two in-order replies. -/
theorem c6_fifo_witness :
    sessionRun
        { pendings := [⟨1, asciiBytes "PING"⟩, ⟨2, asciiBytes "ECHO"⟩]
          resolutions := [], errorEvents := 0 }
        ([Resp3.simple_string (asciiBytes "PONG") none,
          Resp3.blob_string (some (asciiBytes "hi")) none].map SessionEvent.reply)
      = { pendings :=
            ([⟨1, asciiBytes "PING"⟩, ⟨2, asciiBytes "ECHO"⟩] : List Pending).drop 2
          resolutions := [] ++ List.zipWith (fun (p : Pending) r => (p.id, replyOutcome r))
            [⟨1, asciiBytes "PING"⟩, ⟨2, asciiBytes "ECHO"⟩]
            [Resp3.simple_string (asciiBytes "PONG") none,
             Resp3.blob_string (some (asciiBytes "hi")) none]
          errorEvents := 0 } :=
  c6_fifo_resolution_order.2 [⟨1, asciiBytes "PING"⟩, ⟨2, asciiBytes "ECHO"⟩]
    [Resp3.simple_string (asciiBytes "PONG") none,
     Resp3.blob_string (some (asciiBytes "hi")) none] [] 0 (by decide)

/-- C7: the handshake sends `HELLO 3` encoded as exactly
`*2\r\n$5\r\nHELLO\r\n$1\r\n3\r\n`, and the first decoded reply completes
the handshake if and only if it is the simple string `OK`; every other
reply is rejected (failing the pending `connect()`). -/
theorem c7_handshake_contract :
    Resp3Writer.encodeCommand (asciiBytes "HELLO") [asciiBytes "3"]
        = asciiBytes "*2\r\n$5\r\nHELLO\r\n$1\r\n3\r\n" ∧
    (∀ (v : List Nat) (a : Option Attrs),
        handshakeAccepts (.simple_string v a) = true ↔ v = asciiBytes "OK") ∧
    (∀ r : Resp3, handshakeAccepts r = true →
        ∃ a : Option Attrs, r = .simple_string (asciiBytes "OK") a) := by
  refine ⟨rfl, ?_, ?_⟩
  · intro v a; simp [handshakeAccepts]
  · intro r h
    cases r <;> simp [handshakeAccepts] at h
    case simple_string v a => exact ⟨a, by rw [h]⟩

/-- Witness for C7: the literal `OK` simple string is accepted. -/
theorem c7_handshake_witness :
    handshakeAccepts (.simple_string (asciiBytes "OK") none) = true :=
  (c7_handshake_contract.2.1 (asciiBytes "OK") none).mpr rfl

/-- C8 counterexample: a configuration with `commandTimeout = 0` (and
otherwise default-like values) passes `_validateOptions` — a zero command
timeout is NOT rejected, contrary to the claim. -/
theorem c8_counterexample_zero_command_timeout_accepted :
    validateOptions
        { port := 6379, connectTimeout := 5000, commandTimeout := 0, database := 0 }
      = none :=
  rfl

/-- C8 amended: validation accepts a configuration exactly when the port is
in [1,65535] and the connect timeout, command timeout and database are all
nonnegative; so a NEGATIVE command timeout is rejected at configuration
time, but a zero command timeout is accepted. -/
theorem c8_amended_validation_acceptance (o : ClientNumOptions) :
    validateOptions o = none ↔
      1 ≤ o.port ∧ o.port ≤ 65535 ∧ 0 ≤ o.connectTimeout ∧
        0 ≤ o.commandTimeout ∧ 0 ≤ o.database := by
  unfold validateOptions
  split_ifs <;> simp <;> omega

/-- Witness for the amended C8 theorem at a concrete configuration. -/
theorem c8_amended_witness :
    validateOptions
        { port := 1, connectTimeout := 0, commandTimeout := 0, database := 0 }
      = none :=
  (c8_amended_validation_acceptance
    { port := 1, connectTimeout := 0, commandTimeout := 0, database := 0 }).mpr
    (by decide)

/-- C9: boundary decodes.  `$0\r\n\r\n` is the empty blob string, distinct
from the null blob string of `$-1\r\n`; `*-1\r\n`, `%-1\r\n`, `~-1\r\n`
decode to the null array, map and set; and `>-1\r\n` decodes to a push with
zero elements, delivered to the push sink. -/
theorem c9_null_and_empty_boundaries :
    (Resp3Parser.feed true PState.initial (asciiBytes "$0\r\n\r\n")).2
        = [Emit.reply (.blob_string (some []) none)] ∧
    (Resp3Parser.feed true PState.initial (asciiBytes "$-1\r\n")).2
        = [Emit.reply (.blob_string none none)] ∧
    Resp3.blob_string (some []) none ≠ Resp3.blob_string none none ∧
    (Resp3Parser.feed true PState.initial (asciiBytes "*-1\r\n")).2
        = [Emit.reply (.array none none)] ∧
    (Resp3Parser.feed true PState.initial (asciiBytes "%-1\r\n")).2
        = [Emit.reply (.map none none)] ∧
    (Resp3Parser.feed true PState.initial (asciiBytes "~-1\r\n")).2
        = [Emit.reply (.set none none)] ∧
    (Resp3Parser.feed true PState.initial (asciiBytes ">-1\r\n")).2
        = [Emit.push (.push [] none)] :=
  ⟨rfl, rfl, by simp, rfl, rfl, rfl, rfl⟩

/-- C10 counterexample: the claim's "if and only if" fails.  The valid
64-bit integer reply `2^54` has magnitude above `2^53`, yet
`Number(2^54n)` is exact, so the caller's future resolves with a number
equal to the server's integer. -/
theorem c10_counterexample_exact_above_2pow53 :
    transformResponse (.integer ((2 : Int) ^ 54) none) = .ok (.num ((2 : Int) ^ 54)) ∧
    (2 : Int) ^ 53 < (2 : Int) ^ 54 :=
  ⟨rfl, by decide⟩

/-- `Number(v)` is exact for every integer of magnitude at most `2^53`. -/
theorem jsDoubleOfInt_exact (v : Int) (h : v.natAbs ≤ 2 ^ 53) : jsDoubleOfInt v = v := by
  have hN : jsDoubleOfNat v.natAbs = v.natAbs := by
    unfold jsDoubleOfNat
    rw [if_pos h]
  unfold jsDoubleOfInt
  rw [hN]
  split_ifs with hv
  · omega
  · omega

/-- C10 amended: the decoder parses `:…` replies exactly (bigint), and
`sendCommand` resolves the caller's future with `Number(value)` — likewise
for bigint big-numbers.  The resolved value equals the server's integer
WHENEVER its magnitude is at most `2^53` (this bound is sufficient but not
necessary), and for some valid 64-bit replies, e.g. `2^53 + 1`, the caller
observes a different number (`2^53`). -/
theorem c10_amended_integer_precision (v : Int) (h : v.natAbs ≤ 2 ^ 53) :
    transformResponse (.integer v none) = .ok (.num v) ∧
    transformResponse (.big_number (.inl v) none) = .ok (.num v) ∧
    transformResponse (.integer ((2 : Int) ^ 53 + 1) none)
        = .ok (.num ((2 : Int) ^ 53)) ∧
    (Resp3Parser.feed true PState.initial (asciiBytes ":18014398509481985\r\n")).2
        = [Emit.reply (.integer 18014398509481985 none)] := by
  have he := jsDoubleOfInt_exact v h
  exact ⟨by simp [transformResponse, he], by simp [transformResponse, he], rfl, rfl⟩

/-- Witness for the amended C10 theorem at `v = 5`. -/
theorem c10_amended_witness :
    transformResponse (.integer 5 none) = .ok (.num 5) ∧
    transformResponse (.big_number (.inl 5) none) = .ok (.num 5) ∧
    transformResponse (.integer ((2 : Int) ^ 53 + 1) none)
        = .ok (.num ((2 : Int) ^ 53)) ∧
    (Resp3Parser.feed true PState.initial (asciiBytes ":18014398509481985\r\n")).2
        = [Emit.reply (.integer 18014398509481985 none)] :=
  c10_amended_integer_precision 5 (by decide)

end RedisX
